import Mathlib

/-
  Verification of the two-layer BFT web-service implementation
  (layer-2 ABCI application, service registry, session repository,
  layer-1 commit-replication handlers) against its specification.

  The Go sources are shallowly embedded: pure functions become Lean
  functions, the relational store becomes an explicit `Store` value
  threaded through the repository operations, external collaborators
  (PostgreSQL error production, `encoding/json`, `crypto/sha256`, the
  HTTP call to a layer-1 node) are passed in as function parameters,
  and Go panics are modelled by `Option` with `none` for a crash.
-/

namespace DeWS

/-! ## Envelope data model (layer-2/srvreg/service-registry.go)

`Request.Timestamp` (a Go `time.Time` set at ingress) and the derived
`Response.BodyInterface` view are omitted: no embedded code path reads
them.  The `Response.Error` field is likewise never set by any embedded
handler and is excluded from `compareResponses` in the source. -/

structure Request where
  method : String
  path : String
  headers : List (String × String)
  body : String
  remoteAddr : String
  requestID : String
  deriving Repr, DecidableEq

structure Response where
  statusCode : Nat
  headers : List (String × String)
  body : String
  deriving Repr, DecidableEq

structure Transaction where
  request : Request
  response : Response
  originNodeID : String
  blockHeight : Int
  deriving Repr, DecidableEq

/-- A Go `srvreg.ServiceHandler` is `func(*Request) (*Response, error)`;
the second component models the returned `error` (`none` = nil). -/

def ServiceHandler : Type := Request → Response × Option String

/-! ## ABCI application helpers (layer-2/app/app.go) -/

/-- `compareResponses` from app.go: equality on status code and body only;
headers are deliberately not compared. -/

def compareResponses (a b : Response) : Bool :=
  a.statusCode == b.statusCode && a.body == b.body

inductive PPStatus where
  | accept
  | reject
  deriving Repr, DecidableEq

/-- `ProcessProposal` from app.go, embedded over the list of per-tx JSON
parse outcomes.  In the source `json.Unmarshal(txBytes, &tx)` writes into a
`*srvreg.Transaction` and its error is ignored; when parsing fails the
pointer stays nil and `tx.OriginNodeID` dereferences nil, which panics —
modelled here by the `none` element producing the overall result `none`.
`lookup` stands for `app.serviceRegistry.GetHandlerForPath`. -/

def processProposal (self : String) (lookup : String → String → Option ServiceHandler) :
    List (Option Transaction) → Option PPStatus
  | [] => some .accept
  | none :: _ => none
  | some tx :: rest =>
    if tx.originNodeID = self then
      processProposal self lookup rest
    else
      match lookup tx.request.method tx.request.path with
      | none => some .reject
      | some handler =>
        let r := handler tx.request
        if r.2.isSome then some .reject
        else if compareResponses r.1 tx.response then processProposal self lookup rest
        else some .reject

/-- A foreign transaction passes replay iff its handler exists, executes
without error, and reproduces the proposed response (status code + body). -/

def txPasses (self : String) (lookup : String → String → Option ServiceHandler)
    (tx : Transaction) : Bool :=
  decide (tx.originNodeID = self) ||
    match lookup tx.request.method tx.request.path with
    | none => false
    | some handler =>
      let r := handler tx.request
      r.2.isNone && compareResponses r.1 tx.response

/-! ## Block-height byte codec (app.go `int64ToBytes` / `bytesToInt64`)

Go `int64` values are embedded as `Int` with the two's-complement bit
pattern made explicit: `byte(i >> s)` equals digit `s/8` of the unsigned
64-bit pattern of `i`, and the OR-of-shifts in `bytesToInt64` is a sum of
disjoint-bit terms whose signed reading is `toSigned64`. -/

def toUnsigned64 (i : Int) : Nat := (i % (18446744073709551616 : Int)).toNat

def toSigned64 (n : Nat) : Int :=
  if n < 9223372036854775808 then (n : Int) else (n : Int) - 18446744073709551616

def int64ToBytes (i : Int) : List Nat :=
  let u := toUnsigned64 i
  [u / 72057594037927936 % 256,
   u / 281474976710656 % 256,
   u / 1099511627776 % 256,
   u / 4294967296 % 256,
   u / 16777216 % 256,
   u / 65536 % 256,
   u / 256 % 256,
   u % 256]

/-- Go returns 0 when `len(buf) < 8` and otherwise reads exactly
`buf[0] .. buf[7]`; the two match arms mirror those two cases. -/

def bytesToInt64 : List Nat → Int
  | b0 :: b1 :: b2 :: b3 :: b4 :: b5 :: b6 :: b7 :: _ =>
    toSigned64 (b0 * 72057594037927936 + b1 * 281474976710656 +
      b2 * 1099511627776 + b3 * 4294967296 + b4 * 16777216 +
      b5 * 65536 + b6 * 256 + b7)
  | _ => 0

/-! ## String helpers

`strings.ToUpper`, `strings.Split`, `strings.HasPrefix` and string
slicing from the Go standard library are embedded as list-of-character
operations (the strings handled by this program are ASCII, where byte
positions and character positions coincide). -/

def upperChar (c : Char) : Char :=
  if 'a' ≤ c ∧ c ≤ 'z' then Char.ofNat (c.toNat - 32) else c

/-- Models `strings.ToUpper` on ASCII strings. -/

def upperString (s : String) : String := ⟨s.data.map upperChar⟩

def splitChar (sep : Char) : List Char → List (List Char)
  | [] => [[]]
  | c :: rest =>
    let r := splitChar sep rest
    if c = sep then [] :: r
    else
      match r with
      | [] => [[c]]
      | h :: t => (c :: h) :: t

/-- Models `strings.Split` with a one-character separator. -/

def splitOnChar (sep : Char) (s : String) : List String :=
  (splitChar sep s.data).map String.mk

/-- Models `strings.HasPrefix(s, ":")`. -/

def startsWithColon (s : String) : Bool := s.data.head? == some ':'

/-- Models the Go slice `s[:n]` on an ASCII string. -/

def strTake (s : String) (n : Nat) : String := ⟨s.data.take n⟩

/-- Models the Go slice `s[n:]` on an ASCII string. -/

def strDrop (s : String) (n : Nat) : String := ⟨s.data.drop n⟩

/-- Models the Go slice `s[:len(s)-n]` on an ASCII string. -/

def strDropRight (s : String) (n : Nat) : String := ⟨s.data.take (s.data.length - n)⟩

def strLen (s : String) : Nat := s.data.length

/-! ## Service registry (layer-2/srvreg/service-registry.go)

The Go registry keeps `handlers : map[RouteKey]ServiceHandler` and
`exactRoutes : map[RouteKey]bool`.  A Go map is embedded as a list of
entries with pairwise-distinct keys (`registerHandler` replaces the entry
of an existing key, as map assignment does).  The pattern-matching loop
of `GetHandlerForPath` ranges over the map, whose iteration order Go
leaves unspecified; the embedding therefore takes that iteration order as
an explicit second list `order`, constrained in the theorems to be a
permutation of the registry's entries. -/

structure RouteKey where
  method : String
  path : String
  deriving Repr, DecidableEq

structure RouteEntry where
  key : RouteKey
  isExactPath : Bool
  handler : ServiceHandler

/-- `RegisterHandler`: map assignment under the upper-cased method. -/

def registerHandler (entries : List RouteEntry) (method path : String)
    (isExactPath : Bool) (handler : ServiceHandler) : List RouteEntry :=
  let key : RouteKey := ⟨upperString method, path⟩
  if entries.any (fun e => e.key == key) then
    entries.map fun e => if e.key == key then ⟨key, isExactPath, handler⟩ else e
  else
    entries ++ [⟨key, isExactPath, handler⟩]

/-- `matchPath`: segment-wise comparison where a pattern segment starting
with ":" matches any single path segment. -/

def matchPath (pattern path : String) : Bool :=
  let patternParts := splitOnChar '/' pattern
  let pathParts := splitOnChar '/' path
  patternParts.length == pathParts.length &&
    (patternParts.zip pathParts).all fun pq => startsWithColon pq.1 || pq.1 == pq.2

/-- The filter applied by the pattern loop of `GetHandlerForPath`:
same (upper-cased) method, not an exact route, and `matchPath` succeeds. -/

def patternEntryMatches (method path : String) (e : RouteEntry) : Bool :=
  e.key.method == method && !e.isExactPath && matchPath e.key.path path

/-- The `range` loop over the handlers map, in iteration order `order`. -/

def patternScan (order : List RouteEntry) (method path : String) : Option ServiceHandler :=
  (order.find? (patternEntryMatches method path)).map RouteEntry.handler

/-- The exact-route branch of `GetHandlerForPath`: a map hit that is
registered as exact returns its handler, otherwise fall through. -/

def exactLookup (entries : List RouteEntry) (key : RouteKey) : Option ServiceHandler :=
  match entries.find? (fun e => e.key == key) with
  | some e => if e.isExactPath then some e.handler else none
  | none => none

/-- `GetHandlerForPath`: an exact-route hit on the exact key wins,
otherwise the pattern loop runs in map-iteration order. -/

def getHandlerForPath (entries order : List RouteEntry) (method path : String) :
    Option ServiceHandler :=
  match exactLookup entries ⟨upperString method, path⟩ with
  | some h => some h
  | none => patternScan order (upperString method) path

/-! ## Claim C7: route lookup -/

def c7h1 : ServiceHandler := fun _ => (⟨200, [], "handler-one"⟩, none)

def c7h2 : ServiceHandler := fun _ => (⟨200, [], "handler-two"⟩, none)

def c7e1 : RouteEntry := ⟨⟨"POST", "/a/:x"⟩, false, c7h1⟩

def c7e2 : RouteEntry := ⟨⟨"POST", "/:y/b"⟩, false, c7h2⟩

/-- The registry obtained by registering the pattern `/a/:x` first and the
pattern `/:y/b` second, both for POST; both patterns match `/a/b`. -/

def c7reg : List RouteEntry :=
  registerHandler (registerHandler [] "POST" "/a/:x" false c7h1) "POST" "/:y/b" false c7h2

def c7req : Request := ⟨"POST", "/a/b", [], "", "", "r1"⟩

/-! ## Session store data model (layer-2/repository models)

Rows carry the fields the embedded operations read or write; `time.Time`
columns (created/updated timestamps) are omitted.  The store is the
per-replica PostgreSQL working set; `Create` calls are modelled together
with the constraints the gorm schema declares (primary keys, and the
`operator_id` foreign key on sessions). -/

structure RepositoryError where
  code : String
  message : String
  detail : String
  deriving Repr, DecidableEq

def pgErrForeignKeyViolation : String := "23503"

def pgErrUniqueViolation : String := "23505"

structure SessionRow where
  id : String
  status : String
  operatorId : String
  isCommitted : Bool
  txHash : Option String
  deriving Repr, DecidableEq

structure PackageRow where
  id : String
  sessionId : Option String
  supplierId : String
  signature : String
  isTrusted : Bool
  status : String
  deriving Repr, DecidableEq

structure QCRecordRow where
  id : String
  packageId : String
  sessionId : String
  passed : Bool
  inspectorId : String
  issues : String
  deriving Repr, DecidableEq

structure LabelRow where
  id : String
  packageId : String
  sessionId : String
  destination : String
  courierId : String
  courierName : String
  priority : String
  deriving Repr, DecidableEq

structure CourierRow where
  id : String
  name : String
  deriving Repr, DecidableEq

structure TransactionRow where
  txHash : String
  sessionId : String
  blockHeight : Int
  status : String
  deriving Repr, DecidableEq

structure Store where
  operators : List String
  couriers : List CourierRow
  sessions : List SessionRow
  packages : List PackageRow
  qcRecords : List QCRecordRow
  labels : List LabelRow
  txRows : List TransactionRow
  deriving Repr, DecidableEq

/-! ## Request body types and the `encoding/json` boundary

The handlers decode their JSON bodies with `json.Unmarshal` and encode
the issues list with `json.Marshal`; those standard-library calls are
external to the embedding and are passed in as a `JsonCodec` record of
decoding/encoding functions (`Except.error` = an unmarshal error with its
message). -/

structure StartSessionBody where
  operatorId : String
  deriving Repr, DecidableEq

structure CommitBody where
  operatorId : String
  deriving Repr, DecidableEq

structure ReceiveCommitBody where
  operatorId : String
  packageId : String
  supplierSignature : String
  label : String
  destination : String
  priority : String
  courierId : String
  qcPassed : Bool
  issues : List String
  deriving Repr, DecidableEq

structure JsonCodec where
  startSession : String → Except String StartSessionBody
  commitBody : String → Except String CommitBody
  receiveCommit : String → Except String ReceiveCommitBody
  encodeStringList : List String → String
  encodeTx : TransactionRow → String

def defaultHeaders : List (String × String) := [("Content-Type", "application/json")]

/-- The Go handlers build error bodies as `fmt.Sprintf` of
`\x7b"error":"%s"\x7d`. -/

def jsonError (msg : String) : String := "\x7b\"error\":\"" ++ msg ++ "\"\x7d"

/-! ## Layer-2 repository operations (layer-2/repository/repository.go) -/

/-- `Repository.CreateSession`: one `dbTx.Create(&session)` inside a DB
transaction.  PostgreSQL rejects a duplicate `session_id` primary key
with a unique violation and an unknown `operator_id` with a foreign-key
violation; any error rolls the transaction back (store unchanged). -/

def createSession (st : Store) (sessionID operatorID : String) :
    Except RepositoryError (SessionRow × Store) :=
  if st.sessions.any (fun s => s.id == sessionID) then
    .error ⟨pgErrUniqueViolation, "duplicate key value violates unique constraint",
      "Key (session_id)=(" ++ sessionID ++ ") already exists."⟩
  else if !(st.operators.contains operatorID) then
    .error ⟨pgErrForeignKeyViolation, "insert or update violates foreign key constraint",
      "Key (operator_id)=(" ++ operatorID ++ ") is not present in table operators."⟩
  else
    let row : SessionRow := ⟨sessionID, "active", operatorID, false, none⟩
    .ok (row, { st with sessions := st.sessions ++ [row] })

/-- `Repository.QualityCheck`: find the session, find its package,
require status `validated`, JSON-encode the issues (empty list encodes to
the empty string), derive the QC id from the hash of package-id ++
session-id, insert the record and set the package status from the passed
flag.  `hashHex` models `hex.EncodeToString(sha256.Sum256(...))`; the
insert is modelled as failing on a `qc_id` primary-key conflict. -/

def qualityCheck (hashHex : String → String) (codec : JsonCodec) (st : Store)
    (sessionID : String) (qcPassed : Bool) (issues : List String) :
    Except RepositoryError (PackageRow × QCRecordRow × Store) :=
  match st.sessions.find? (fun s => s.id == sessionID) with
  | none => .error ⟨"ENTITY_NOT_FOUND", "Session does not exist",
      "Session with id " ++ sessionID ++ " does not exist"⟩
  | some session =>
    match st.packages.find? (fun p => p.sessionId == some sessionID) with
    | none => .error ⟨"ENTITY_NOT_FOUND", "Package does not exist",
        "Package associated with session " ++ sessionID ++ " does not exist"⟩
    | some pkg =>
      if pkg.status ≠ "validated" then
        .error ⟨"INVALID_STATE", "Package is not ready for QC",
          "Package status is " ++ pkg.status ++ ", must be validated"⟩
      else
        let issuesStr := if issues.isEmpty then "" else codec.encodeStringList issues
        let qcID := "QC-" ++ strTake (hashHex (pkg.id ++ sessionID)) 16
        let qcRecord : QCRecordRow := ⟨qcID, pkg.id, sessionID, qcPassed, session.operatorId, issuesStr⟩
        if st.qcRecords.any (fun q => q.id == qcID) then
          .error ⟨"INSERT_FAILED", "Failed to create QC record", "duplicate qc_id"⟩
        else
          let pkg2 := { pkg with status := if qcPassed then "qc_passed" else "qc_failed" }
          .ok (pkg2, qcRecord,
            { st with
              qcRecords := st.qcRecords ++ [qcRecord],
              packages := st.packages.map fun p => if p.id == pkg.id then pkg2 else p })

/-- `Repository.LabelPackage`: find the session, its package and the
courier, derive the label id from the hash of courier-id ++ package-id ++
session-id, insert the label (modelled as failing on a `label_id`
primary-key conflict).  The post-insert verification reads in the source
are read-only and elided. -/

def labelPackage (hashHex : String → String) (st : Store)
    (sessionID destination priority courierID : String) :
    Except RepositoryError (LabelRow × Store) :=
  match st.sessions.find? (fun s => s.id == sessionID) with
  | none => .error ⟨"ENTITY_NOT_FOUND", "Session does not exist",
      "Session with id " ++ sessionID ++ " does not exist"⟩
  | some session =>
    match st.packages.find? (fun p => p.sessionId == some sessionID) with
    | none => .error ⟨"ENTITY_NOT_FOUND", "No package found for this session",
        "No package found for session " ++ sessionID⟩
    | some pkg =>
      match st.couriers.find? (fun c => c.id == courierID) with
      | none => .error ⟨"ENTITY_NOT_FOUND", "Courier does not exist",
          "Courier with id " ++ courierID ++ " does not exist"⟩
      | some courier =>
        let labelID := "LBL-" ++ strTake (hashHex (courier.id ++ pkg.id ++ sessionID)) 16
        let newLabel : LabelRow :=
          ⟨labelID, pkg.id, session.id, destination, courier.id, courier.name, priority⟩
        if st.labels.any (fun l => l.id == labelID) then
          .error ⟨"DATABASE_ERROR", "Failed to create label", "duplicate label_id"⟩
        else
          .ok (newLabel, { st with labels := st.labels ++ [newLabel] })

structure ConsensusResultM where
  txHash : String
  blockHeight : Int
  code : Nat
  deriving Repr, DecidableEq

/-- The JSON payload `Repository.CommitToL1` posts to
`/session/\x7bid\x7d/commit-l1` (the non-deterministic `timestamp` field is
omitted). -/

structure L1CommitPayload where
  sessionId : String
  operatorId : String
  packageId : String
  supplierSignature : String
  destination : String
  priority : String
  courierId : String
  qcPassed : Bool
  issues : List String
  deriving Repr, DecidableEq

/-- The `meta` portion of the layer-1 node's client response that
`CommitToL1` extracts (`meta.block_height` and `meta.block_hash`). -/

structure L1Meta where
  blockHeight : Int
  blockHash : String
  deriving Repr, DecidableEq

/-- `Repository.CommitToL1`: guard on configured addresses, POST the
payload to the first layer-1 node and read back block height and hash.
`net` models the HTTP round-trip plus JSON decode; its errors stand for
the NETWORK_ERROR / READ_ERROR / PARSE_ERROR cases the source builds. -/

def commitToL1 (net : L1CommitPayload → Except RepositoryError L1Meta)
    (l1Addresses : List String) (p : L1CommitPayload) :
    Except RepositoryError ConsensusResultM :=
  if l1Addresses.isEmpty then
    .error ⟨"CONFIG_ERROR", "No L1 node addresses configured", "l1Addresses slice is empty"⟩
  else
    match net p with
    | .error e => .error e
    | .ok meta => .ok ⟨meta.blockHash, meta.blockHeight, 0⟩

/-- `Repository.CommitSession`: validations (session exists, not already
committed, operator matches, package bound, package `qc_passed`, label
exists), then the issues string of the first QC record is sliced as
`rawIssues[1 : len(rawIssues)-1]` and split on ",", the commit is posted
to layer 1, and on success the session, package and a new local
Transaction row are written.  Indexing `pkg.QCRecords[0]` with no QC
record and the slice with `len(rawIssues) < 2` panic in Go: result
`none`.  The Go struct literal for the Transaction row never assigns
`TxHash`, so it stays at its zero value `""`, and
`session.TxHash = &tx.TxHash` stores that empty string. -/

def commitSession (net : L1CommitPayload → Except RepositoryError L1Meta)
    (l1Addresses : List String) (st : Store) (sessionID operatorID : String) :
    Option (Except RepositoryError (TransactionRow × Store)) :=
  match st.sessions.find? (fun s => s.id == sessionID) with
  | none => some (.error ⟨"ENTITY_NOT_FOUND", "Session does not exist",
      "Session with id " ++ sessionID ++ " does not exist"⟩)
  | some session =>
    if session.status = "committed" then
      some (.error ⟨"CONFLICT", "Session already committed", "the session is already committed"⟩)
    else if operatorID ≠ session.operatorId then
      some (.error ⟨"UNAUTHORIZED", "Authorization Failed",
        "you are not authorized to commit this session"⟩)
    else
      match st.packages.find? (fun p => p.sessionId == some session.id) with
      | none => some (.error ⟨"INVALID_STATE", "Session not ready for commit",
          "Session " ++ sessionID ++ " does not have a package associated to it"⟩)
      | some pkg =>
        if pkg.status ≠ "qc_passed" then
          some (.error ⟨"INVALID_STATE", "Package not ready for commit",
            "Package status is " ++ pkg.status ++ ", must be qc_passed"⟩)
        else
          match st.labels.find? (fun l => l.packageId == pkg.id) with
          | none => some (.error ⟨"INVALID_STATE", "Package not labeled",
              "Package must be labeled before committing"⟩)
          | some label =>
            match (st.qcRecords.filter (fun q => q.packageId == pkg.id)).head? with
            | none => none
            | some qc0 =>
              if strLen qc0.issues < 2 then none
              else
                let inner := strDropRight (strDrop qc0.issues 1) 1
                let issues := splitOnChar ',' inner
                let qcPassed := pkg.status = "qc_passed"
                match commitToL1 net l1Addresses
                    ⟨session.id, session.operatorId, pkg.id, "signature123",
                     label.destination, label.priority, label.courierId, qcPassed, issues⟩ with
                | .error e => some (.error e)
                | .ok l1Resp =>
                  let tx : TransactionRow := ⟨"", session.id, l1Resp.blockHeight, "committed"⟩
                  let session2 := { session with
                    isCommitted := true, status := "committed", txHash := some tx.txHash }
                  let pkg2 := { pkg with status := "committed" }
                  if st.txRows.any (fun t => t.sessionId == session.id) then
                    some (.error ⟨"CONSENSUS_ERROR", "a consensus error occurred",
                      "duplicate transaction row"⟩)
                  else
                    some (.ok (tx, { st with
                      sessions := st.sessions.map fun s => if s.id == session.id then session2 else s,
                      packages := st.packages.map fun p => if p.id == pkg.id then pkg2 else p,
                      txRows := st.txRows ++ [tx] }))

/-! ## Handler error-code switches (layer-1 srvreg handlers file)

Each handler maps the repository error it receives to a Response through
its own `switch dbErr.Code`; the six switches below are carved out of the
handler bodies verbatim.  The second component is the handler's returned
Go error (`none` = nil). -/

def createSessionDbErrorResponse (e : RepositoryError) : Response × Option String :=
  if e.code = pgErrForeignKeyViolation then
    (⟨400, defaultHeaders, jsonError e.detail⟩, some ("foreign key violation: " ++ e.message))
  else if e.code = pgErrUniqueViolation then
    (⟨409, defaultHeaders, jsonError e.detail⟩, some ("unique violation: " ++ e.message))
  else
    (⟨500, defaultHeaders, jsonError "Internal server error"⟩, none)

def scanPackageDbErrorResponse (e : RepositoryError) : Response × Option String :=
  if e.code = "ENTITY_NOT_FOUND" then
    (⟨404, defaultHeaders, jsonError e.message⟩, some ("entity not found: " ++ e.message))
  else
    (⟨500, defaultHeaders, jsonError "Internal server error"⟩, none)

def validatePackageDbErrorResponse (e : RepositoryError) : Response × Option String :=
  if e.code = "ENTITY_NOT_FOUND" then
    (⟨404, defaultHeaders, jsonError e.message⟩, some ("entity not found: " ++ e.message))
  else
    (⟨500, defaultHeaders, jsonError "Internal server error"⟩, none)

def qualityCheckDbErrorResponse (e : RepositoryError) : Response × Option String :=
  if e.code = "ENTITY_NOT_FOUND" then
    (⟨404, defaultHeaders, jsonError e.message⟩, some ("entity not found: " ++ e.message))
  else
    (⟨500, defaultHeaders, jsonError "Internal server error"⟩, none)

def labelPackageDbErrorResponse (e : RepositoryError) : Response × Option String :=
  if e.code = "ENTITY_NOT_FOUND" then
    (⟨404, defaultHeaders, jsonError e.detail⟩, some ("database error: " ++ e.code))
  else if e.code = pgErrForeignKeyViolation then
    (⟨400, defaultHeaders, jsonError e.detail⟩, some ("database error: " ++ e.code))
  else
    (⟨500, defaultHeaders, jsonError e.detail⟩, some ("database error: " ++ e.code))

def commitSessionDbErrorResponse (e : RepositoryError) : Response × Option String :=
  if e.code = "INVALID_STATE" then
    (⟨409, defaultHeaders, jsonError e.detail⟩, some ("database error: " ++ e.code))
  else if e.code = "ENTITY_NOT_FOUND" then
    (⟨404, defaultHeaders, jsonError e.detail⟩, some ("database error: " ++ e.code))
  else if e.code = pgErrForeignKeyViolation then
    (⟨400, defaultHeaders, jsonError e.detail⟩, some ("database error: " ++ e.code))
  else
    (⟨500, defaultHeaders, jsonError e.detail⟩, some ("database error: " ++ e.code))

/-- The fixed error-status table as the specification words it:
foreign-key violation 400, unique violation 409, entity not found 404,
invalid state 409, anything else 500.  Defined from the spec for
comparison with the per-handler switches above. -/

def specDbErrorStatus (code : String) : Nat :=
  if code = pgErrForeignKeyViolation then 400
  else if code = pgErrUniqueViolation then 409
  else if code = "ENTITY_NOT_FOUND" then 404
  else if code = "INVALID_STATE" then 409
  else 500

/-- `CreateSessionHandler`: derive the session id from the request id,
decode the body, require a non-empty operator id (that branch returns the
— nil — unmarshal error alongside the 400 Response), run
`Repository.CreateSession` and map its error through the handler's
switch. -/

def createSessionHandler (codec : JsonCodec) (st : Store) (req : Request) :
    (Response × Option String) × Store :=
  let sessionID := "SESSION-" ++ req.requestID
  match codec.startSession req.body with
  | .error msg =>
    ((⟨422, defaultHeaders, jsonError ("Failed to create session: " ++ msg)⟩, some msg), st)
  | .ok body =>
    if body.operatorId = "" then
      ((⟨400, defaultHeaders, jsonError "operator ID is required"⟩, none), st)
    else
      match createSession st sessionID body.operatorId with
      | .error dbErr => (createSessionDbErrorResponse dbErr, st)
      | .ok (session, st2) =>
        ((⟨201, defaultHeaders,
          "\x7b\"message\":\"Session generated\",\"id\":\"" ++ session.id ++ "\"\x7d"⟩, none), st2)

/-- Modelled from the spec: the layer-2 srvreg handlers file is absent
from src/ (only its registration calls in service-registry.go and its
layer-1 twin are present).  Per the spec the POST /commit/:id handler
extracts the session id from the path, decodes an operator-id body,
invokes `Repository.CommitSession` and maps repository errors exactly as
its layer-1 twin `CommitSessionHandler` does
(`commitSessionDbErrorResponse`); on success it returns 202 with the
marshalled Transaction row. -/

def commitSessionHandlerL2 (codec : JsonCodec)
    (net : L1CommitPayload → Except RepositoryError L1Meta) (l1Addresses : List String)
    (st : Store) (req : Request) : Option ((Response × Option String) × Store) :=
  let pathParts := splitOnChar '/' req.path
  if pathParts.length ≠ 3 then
    some ((⟨400, defaultHeaders, jsonError "Invalid path format"⟩, some "invalid path format"), st)
  else
    let sessionID := pathParts.getD 2 ""
    match codec.commitBody req.body with
    | .error msg => some ((⟨422, defaultHeaders, jsonError msg⟩, some msg), st)
    | .ok body =>
      match commitSession net l1Addresses st sessionID body.operatorId with
      | none => none
      | some (.error dbErr) => some (commitSessionDbErrorResponse dbErr, st)
      | some (.ok (tx, st2)) =>
        some ((⟨202, defaultHeaders, "\x7b\"tx\":" ++ codec.encodeTx tx ++ "\x7d"⟩, none), st2)

/-! ## Layer-1 commit replication (layer-1 srvreg `ReceiveCommitHandler`) -/

/-- An L1-side materialisation of a committed session: the payload fields
keyed by session id (the idempotency key). -/

structure L1SessionRecord where
  sessionId : String
  operatorId : String
  packageId : String
  supplierSignature : String
  label : String
  destination : String
  priority : String
  courierId : String
  qcPassed : Bool
  issues : List String
  deriving Repr, DecidableEq

/-- The record `ReceiveCommitHandler` hands to the repository for a given
session id and decoded body. -/

def payloadRecord (sessionID : String) (b : ReceiveCommitBody) : L1SessionRecord :=
  ⟨sessionID, b.operatorId, b.packageId, b.supplierSignature, b.label,
   b.destination, b.priority, b.courierId, b.qcPassed, b.issues⟩

/-- Modelled from the spec: `Repository.ReplicateCommitFromL2` is absent
from src/ (only its caller `ReceiveCommitHandler` is present).  Per the
spec it inserts the committed session state keyed by session id; if the
row already exists with identical contents it succeeds without change,
and if it exists with different contents it fails with a conflict error
(a detected cross-layer conflict). -/

def replicateCommitFromL2 (st : List L1SessionRecord) (sessionID : String)
    (operatorID packageID supplierSignature label destination priority courierID : String)
    (qcPassed : Bool) (issues : List String) :
    Except RepositoryError (List L1SessionRecord) :=
  let row : L1SessionRecord := ⟨sessionID, operatorID, packageID, supplierSignature,
    label, destination, priority, courierID, qcPassed, issues⟩
  match st.find? (fun r => r.sessionId == sessionID) with
  | none => .ok (st ++ [row])
  | some existing =>
    if existing = row then .ok st
    else .error ⟨"CONFLICT", "Session exists with different contents",
      "cross-layer conflict for session " ++ sessionID⟩

/-- `ReceiveCommitHandler`: parse the 4-segment path, decode the body
(the unmarshal-failure branch returns a 422 Response with no body), call
the replication repository operation — any repository error is answered
with 422 carrying the error triple — and on success answer 202 echoing
the request body. -/

def receiveCommitHandler (codec : JsonCodec) (st : List L1SessionRecord) (req : Request) :
    (Response × Option String) × List L1SessionRecord :=
  let pathParts := splitOnChar '/' req.path
  if pathParts.length ≠ 4 then
    ((⟨400, defaultHeaders, jsonError "Invalid path format"⟩, some "invalid path format"), st)
  else
    let sessionID := pathParts.getD 2 ""
    match codec.receiveCommit req.body with
    | .error msg => ((⟨422, defaultHeaders, ""⟩, some msg), st)
    | .ok b =>
      match replicateCommitFromL2 st sessionID b.operatorId b.packageId b.supplierSignature
          b.label b.destination b.priority b.courierId b.qcPassed b.issues with
      | .error re =>
        ((⟨422, defaultHeaders,
          jsonError (re.code ++ ", " ++ re.message ++ ", " ++ re.detail)⟩, none), st)
      | .ok st2 => ((⟨202, defaultHeaders, req.body⟩, none), st2)

/-! ## Layer-2 web server (layer-2/server/server.go) -/

/-- `Request.GenerateResponse`: look the handler up in the registry; a
miss yields a plain 404; the Byzantine test hook rewrites 200/201
responses to a corrupted 500 before the envelope is assembled. -/

def generateResponse (entries order : List RouteEntry) (isByzantine : Bool) (req : Request) :
    Response × Option String :=
  match getHandlerForPath entries order req.method req.path with
  | none =>
    (⟨404, [("Content-Type", "text/plain")],
      "Service not found for " ++ req.method ++ " " ++ req.path⟩, none)
  | some handler =>
    let r := handler req
    if isByzantine ∧ (r.1.statusCode = 200 ∨ r.1.statusCode = 201) then
      ({ r.1 with
          statusCode := 500,
          body := "\x7b\"message\": \"Byzantiner node response - data corrupted\"\x7d" }, r.2)
    else r

/-- What `handleSessionAPI` does with the (response, error) pair from
`GenerateResponse`: a non-nil error short-circuits into `JSONError(...,
422)` without assembling or broadcasting an envelope; a nil error
assembles the Transaction envelope and submits it to consensus. -/

inductive SessionAPIOutcome where
  | localError (statusCode : Nat) (body : String)
  | broadcast (envelope : Transaction)
  deriving Repr, DecidableEq

def handleSessionAPIDispatch (self : String) (req : Request) (gen : Response × Option String) :
    SessionAPIOutcome :=
  match gen.2 with
  | some msg => .localError 422 (jsonError ("Failed to generate response: " ++ msg))
  | none => .broadcast ⟨req, gen.1, self, 0⟩

def SessionAPIOutcome.isBroadcast : SessionAPIOutcome → Bool
  | .localError _ _ => false
  | .broadcast _ => true

def SessionAPIOutcome.clientStatus : SessionAPIOutcome → Nat
  | .localError s _ => s
  | .broadcast tx => tx.response.statusCode

def c7wExact : RouteEntry := ⟨⟨"POST", "/session/start"⟩, true, c7h1⟩

def c7wPattern : RouteEntry := ⟨⟨"POST", "/commit/:id"⟩, false, c7h2⟩

def c7wReg : List RouteEntry := [c7wExact, c7wPattern]

/-! ## Claim C2: handler failures and broadcast -/

def c2codec : JsonCodec where
  startSession := fun b =>
    if b = "\x7b\"operator_id\":\"OPR-ZZZ\"\x7d" then .ok ⟨"OPR-ZZZ"⟩
    else .error "invalid character"
  commitBody := fun _ => .error "unused"
  receiveCommit := fun _ => .error "unused"
  encodeStringList := fun _ => "[]"
  encodeTx := fun _ => "null"

/-- A store seeded with operator OPR-001 only, so that OPR-ZZZ violates
the sessions.operator_id foreign key (spec scenario S2). -/

def c2store : Store := ⟨["OPR-001"], [], [], [], [], [], []⟩

def c2req : Request :=
  ⟨"POST", "/session/start", [], "\x7b\"operator_id\":\"OPR-ZZZ\"\x7d", "", "r0001"⟩

def c2handler : ServiceHandler := fun req => (createSessionHandler c2codec c2store req).1

def c2reg : List RouteEntry := registerHandler [] "POST" "/session/start" true c2handler

/-! ## Claim C4: tx_hash after a successful commit -/

/-- A store holding a fully prepared session S1 (package qc_passed, QC
record with issues, label present). -/

def c4store : Store :=
  ⟨["OPR-001"], [⟨"COU-001", "Speedy Express"⟩],
   [⟨"S1", "active", "OPR-001", false, none⟩],
   [⟨"PKG-1", some "S1", "SUP-001", "sig", true, "qc_passed"⟩],
   [⟨"QC-1", "PKG-1", "S1", true, "OPR-001", "[\"all good\"]"⟩],
   [⟨"LBL-1", "PKG-1", "S1", "CUSTOMER A", "COU-001", "Speedy Express", "standard"⟩],
   []⟩

/-- A layer-1 node answering block height 7 and block hash "ABCDEF". -/

def c4net : L1CommitPayload → Except RepositoryError L1Meta := fun _ => .ok ⟨7, "ABCDEF"⟩

/-! ## Claim C3: the commit gate -/

def c3codec : JsonCodec where
  startSession := fun _ => .error "unused"
  commitBody := fun _ => .ok ⟨"OPR-001"⟩
  receiveCommit := fun _ => .error "unused"
  encodeStringList := fun _ => "[]"
  encodeTx := fun _ => "null"

/-- A store whose session S1 is already committed; its bound package has
status "committed" (≠ "qc_passed"). -/

def c3store : Store :=
  ⟨["OPR-001"], [], [⟨"S1", "committed", "OPR-001", true, some ""⟩],
   [⟨"PKG-1", some "S1", "SUP-001", "sig", true, "committed"⟩], [], [], []⟩

def c3req : Request := ⟨"POST", "/commit/S1", [], "\x7b\"operator_id\":\"OPR-001\"\x7d", "", "r3"⟩

def c3net : L1CommitPayload → Except RepositoryError L1Meta := fun _ => .ok ⟨1, "H"⟩

def c3wStore : Store :=
  ⟨["OPR-001"], [], [⟨"S1", "active", "OPR-001", false, none⟩],
   [⟨"PKG-1", some "S1", "SUP-001", "sig", true, "validated"⟩], [], [], []⟩

def c3wReq : Request := ⟨"POST", "/commit/S1", [], "\x7b\"operator_id\":\"OPR-001\"\x7d", "", "r3w"⟩

/-! ## Claim C5: layer-1 commit replication idempotency -/

def c5row : L1SessionRecord :=
  ⟨"S1", "OPR-001", "PKG-1", "sig", "L", "CUSTOMER A", "standard", "COU-001", true, ["all good"]⟩

def c5codecDiff : JsonCodec where
  startSession := fun _ => .error "unused"
  commitBody := fun _ => .error "unused"
  receiveCommit := fun _ =>
    .ok ⟨"OPR-001", "PKG-1", "sig", "L", "CUSTOMER B", "standard", "COU-001", true, ["all good"]⟩
  encodeStringList := fun _ => "[]"
  encodeTx := fun _ => "null"

def c5codecSame : JsonCodec where
  startSession := fun _ => .error "unused"
  commitBody := fun _ => .error "unused"
  receiveCommit := fun _ =>
    .ok ⟨"OPR-001", "PKG-1", "sig", "L", "CUSTOMER A", "standard", "COU-001", true, ["all good"]⟩
  encodeStringList := fun _ => "[]"
  encodeTx := fun _ => "null"

def c5req : Request := ⟨"POST", "/session/S1/commit-l1", [], "payload-b", "", "r5"⟩

def c8hash : String → String := fun _ => "0123456789abcdef0123456789abcdef"

def c8codec : JsonCodec where
  startSession := fun _ => .ok ⟨"OPR-001"⟩
  commitBody := fun _ => .error "unused"
  receiveCommit := fun _ => .error "unused"
  encodeStringList := fun _ => "[\"all good\"]"
  encodeTx := fun _ => "null"

def c8store : Store :=
  ⟨["OPR-001"], [⟨"COU-001", "Speedy Express"⟩],
   [⟨"S1", "active", "OPR-001", false, none⟩],
   [⟨"PKG-1", some "S1", "SUP-001", "sig", true, "validated"⟩], [], [], []⟩

def c8req : Request := ⟨"POST", "/session/start", [], "\x7b\x7d", "", "abc123"⟩

/-! ## Theorems -/

/-! ## Claim C1 and C9: ProcessProposal -/

/-- Claim C1: ProcessProposal replays every foreign transaction of the
proposal — rejecting when the handler for (method, path) is missing, when
the handler errors, or when the locally computed response differs from the
proposed one in status code or body — accepts when every foreign
transaction passes, skips replay entirely for transactions whose origin
node id is the replica's own, and compares responses ignoring headers. -/

theorem c1_processProposal_replay :
    (∀ (self : String) (lookup : String → String → Option ServiceHandler)
        (txs : List Transaction),
      processProposal self lookup (txs.map some) =
        some (if txs.all (txPasses self lookup) then PPStatus.accept else PPStatus.reject))
    ∧ (∀ (self : String) (lookup : String → String → Option ServiceHandler)
        (req : Request) (resp : Response) (bh : Int) (rest : List (Option Transaction)),
      processProposal self lookup (some ⟨req, resp, self, bh⟩ :: rest) =
        processProposal self lookup rest)
    ∧ (∀ (a b : Response) (ha hb : List (String × String)),
      compareResponses { a with headers := ha } { b with headers := hb } =
        compareResponses a b) := by
  refine ⟨?_, ?_, ?_⟩
  · intro self lookup txs
    induction txs with
    | nil => simp [processProposal]
    | cons tx rest ih =>
      simp only [List.map_cons, processProposal, List.all_cons]
      by_cases hself : tx.originNodeID = self
      · simp [txPasses, hself, ih]
      · simp only [if_neg hself]
        cases hl : lookup tx.request.method tx.request.path with
        | none => simp [txPasses, hself, hl]
        | some handler =>
          cases herr : (handler tx.request).2 with
          | some e => simp [txPasses, hself, hl, herr]
          | none =>
            cases hcmp : compareResponses (handler tx.request).1 tx.response with
            | false => simp [txPasses, hself, hl, herr, hcmp]
            | true => simp [txPasses, hself, hl, herr, hcmp, ih]
  · intro self lookup req resp bh rest
    simp [processProposal]
  · intro a b ha hb
    simp [compareResponses]

/-- Claim C9: ProcessProposal is not total over arbitrary proposal
contents — a proposal containing a byte sequence that does not parse as a
Transaction makes the replica crash (nil-pointer dereference of the
ignored parse result) instead of returning a verdict: the embedding
evaluates to `none` (panic), not to `some` verdict. -/

theorem c9_processProposal_crash_on_unparseable :
    processProposal "node0" (fun _ _ => none) [none] = none ∧
      ∀ v : PPStatus, processProposal "node0" (fun _ _ => none) [none] ≠ some v := by
  exact ⟨rfl, fun v h => by simp [processProposal] at h⟩

/-! ## Claim C10: block-height byte codec round-trip -/

/-- Claim C10: for every 64-bit signed integer h,
`bytesToInt64 (int64ToBytes h) = h`, and `bytesToInt64` returns 0 on any
buffer shorter than 8 bytes, so a stored `last_block_height` reads back
as the height FinalizeBlock wrote. -/

theorem c10_int64_bytes_roundtrip :
    (∀ h : Int, -9223372036854775808 ≤ h → h < 9223372036854775808 →
      bytesToInt64 (int64ToBytes h) = h)
    ∧ (∀ buf : List Nat, buf.length < 8 → bytesToInt64 buf = 0) := by
  constructor
  · intro h hlo hhi
    simp only [int64ToBytes, bytesToInt64, toUnsigned64, toSigned64]
    split <;> omega
  · intro buf hlen
    match buf with
    | [] => rfl
    | [_] => rfl
    | [_, _] => rfl
    | [_, _, _] => rfl
    | [_, _, _, _] => rfl
    | [_, _, _, _, _] => rfl
    | [_, _, _, _, _, _] => rfl
    | [_, _, _, _, _, _, _] => rfl
    | _ :: _ :: _ :: _ :: _ :: _ :: _ :: _ :: _ => exact absurd hlen (by simp)

/-- Witness for C10 at the concrete inputs h = -5 and buf = [1, 2, 3]. -/

theorem c10_int64_bytes_roundtrip_w :
    bytesToInt64 (int64ToBytes (-5)) = -5 ∧ bytesToInt64 [1, 2, 3] = 0 := by
  constructor
  · exact c10_int64_bytes_roundtrip.1 (-5) (by decide) (by decide)
  · exact c10_int64_bytes_roundtrip.2 [1, 2, 3] (by decide)

theorem find_eq_filter_head {α : Type} (p : α → Bool) :
    ∀ l : List α, l.find? p = (l.filter p).head? := by
  intro l
  induction l with
  | nil => rfl
  | cons a l ih =>
    cases h : p a with
    | true =>
      rw [List.find?_cons_of_pos _ h, List.filter_cons_of_pos h]
      rfl
    | false =>
      have h2 : ¬p a = true := by simp [h]
      rw [List.find?_cons_of_neg _ h2, List.filter_cons_of_neg h2, ih]

theorem find_of_nodup_keys :
    ∀ (l : List RouteEntry) (e : RouteEntry),
      (l.map RouteEntry.key).Nodup → e ∈ l →
      l.find? (fun x => x.key == e.key) = some e := by
  intro l
  induction l with
  | nil => intro e _ he; cases he
  | cons a l ih =>
    intro e hnd he
    rcases List.mem_cons.mp he with rfl | hmem
    · simp [List.find?_cons]
    · have hne : a.key ≠ e.key := by
        intro hk
        have : e.key ∈ l.map RouteEntry.key := List.mem_map_of_mem RouteEntry.key hmem
        rw [← hk] at this
        exact (List.nodup_cons.mp hnd).1 this
      have hpa : (a.key == e.key) = false := by
        simp [hne]
      rw [List.find?_cons, hpa]
      exact ih e (List.nodup_cons.mp hnd).2 hmem

/-- Counterexample to claim C7: with two registered patterns both matching
POST /a/b, the handler returned by lookup depends on the map iteration
order — one valid iteration order yields the first-registered handler, the
reversed order yields the second — so lookup is not a deterministic
function of registration order and query. -/

theorem c7_counterexample_order_dependent :
    ([c7e2, c7e1].Perm c7reg) ∧
      ((getHandlerForPath c7reg c7reg "POST" "/a/b").map fun h => (h c7req).1.body) =
        some "handler-one" ∧
      ((getHandlerForPath c7reg [c7e2, c7e1] "POST" "/a/b").map fun h => (h c7req).1.body) =
        some "handler-two" := by
  refine ⟨?_, rfl, rfl⟩
  have hreg : c7reg = [c7e1, c7e2] := rfl
  rw [hreg]
  exact List.Perm.swap c7e1 c7e2 []

/-- Claim C7 (amended): an exact registration for the queried (method,
path) always wins over patterns, and when exactly one registered
non-exact pattern matches the path (and no exact route is registered for
the key) every map-iteration order returns that pattern's handler; when
two or more patterns match, the result is the first match in the
unspecified map-iteration order, not the first-registered one. -/

theorem c7_amended_lookup :
    (∀ (entries order : List RouteEntry) (method path : String) (e : RouteEntry),
      (entries.map RouteEntry.key).Nodup → e ∈ entries →
      e.key = ⟨upperString method, path⟩ → e.isExactPath = true →
      getHandlerForPath entries order method path = some e.handler)
    ∧ (∀ (entries order : List RouteEntry) (method path : String) (e : RouteEntry),
      order.Perm entries →
      (∀ e2 ∈ entries, e2.key = RouteKey.mk (upperString method) path → e2.isExactPath = false) →
      entries.filter (patternEntryMatches (upperString method) path) = [e] →
      getHandlerForPath entries order method path = some e.handler) := by
  constructor
  · intro entries order method path e hnd hmem hkey hexact
    have hfind : entries.find? (fun x => x.key == RouteKey.mk (upperString method) path) =
        some e := by
      rw [← hkey]
      exact find_of_nodup_keys entries e hnd hmem
    have hex : exactLookup entries ⟨upperString method, path⟩ = some e.handler := by
      rw [exactLookup, hfind]
      show (if e.isExactPath = true then some e.handler else none) = some e.handler
      rw [hexact]
      simp
    rw [getHandlerForPath, hex]
  · intro entries order method path e hperm hnoexact hfilter
    have hscan : patternScan order (upperString method) path = some e.handler := by
      have hpf : order.filter (patternEntryMatches (upperString method) path) = [e] := by
        have h1 : (order.filter (patternEntryMatches (upperString method) path)).Perm
            (entries.filter (patternEntryMatches (upperString method) path)) :=
          hperm.filter _
        rw [hfilter] at h1
        exact List.perm_singleton.mp h1
      rw [patternScan, find_eq_filter_head, hpf]
      rfl
    have hex : exactLookup entries ⟨upperString method, path⟩ = none := by
      rw [exactLookup]
      cases hfind : entries.find? (fun x => x.key == RouteKey.mk (upperString method) path) with
      | none => rfl
      | some e2 =>
        have hmem2 : e2 ∈ entries := List.mem_of_find?_eq_some hfind
        have hk2 : e2.key = RouteKey.mk (upperString method) path := by
          have := List.find?_some hfind
          simpa using this
        have hex2 : e2.isExactPath = false := hnoexact e2 hmem2 hk2
        show (if e2.isExactPath = true then some e2.handler else none) = none
        rw [hex2]
        simp
    rw [getHandlerForPath, hex, hscan]

/-- Witness for the amended C7 theorem on a concrete two-route registry:
the exact route answers POST /session/start and the unique matching
pattern answers POST /commit/S1. -/

theorem c7_amended_lookup_w :
    getHandlerForPath c7wReg c7wReg "POST" "/session/start" = some c7h1 ∧
      getHandlerForPath c7wReg c7wReg "POST" "/commit/S1" = some c7h2 := by
  constructor
  · exact c7_amended_lookup.1 c7wReg c7wReg "POST" "/session/start" c7wExact
      (by decide) (List.mem_cons_self _ _) (by decide) rfl
  · refine c7_amended_lookup.2 c7wReg c7wReg "POST" "/commit/S1" c7wPattern
      (List.Perm.refl _) ?_ rfl
    intro e2 hmem hk
    rcases List.mem_cons.mp hmem with rfl | hmem2
    · exact absurd hk (by decide)
    · rcases List.mem_cons.mp hmem2 with rfl | hmem3
      · rfl
      · cases hmem3

/-- Claim C2: on a foreign-key failure the session-start handler returns
a 400 Response together with a non-nil error, and the web server then
answers with a locally generated 422 and never assembles or broadcasts
the envelope — the failure Response is neither recorded by consensus nor
delivered to the client, contradicting the claimed behaviour. -/

theorem c2_handler_failure_not_broadcast :
    (createSessionHandler c2codec c2store c2req).1.1.statusCode = 400
    ∧ (createSessionHandler c2codec c2store c2req).1.2 =
        some "foreign key violation: insert or update violates foreign key constraint"
    ∧ (handleSessionAPIDispatch "node0" c2req
        (generateResponse c2reg c2reg false c2req)).isBroadcast = false
    ∧ (handleSessionAPIDispatch "node0" c2req
        (generateResponse c2reg c2reg false c2req)).clientStatus = 422
    ∧ (422 : Nat) ≠ 400 := by
  refine ⟨rfl, rfl, rfl, rfl, ?_⟩
  decide

/-- Claim C4: after the successful commit the session row is committed
with is_committed true and a Transaction row (block height 7, status
committed) is inserted, but tx_hash is the empty string — not the L1
transaction hash "ABCDEF" returned by the layer-1 node — because the Go
code never assigns the parsed hash into the Transaction literal whose
TxHash field the session points at. -/

theorem c4_commit_leaves_txhash_empty :
    (commitSession c4net ["layer-1-node0:5000"] c4store "S1" "OPR-001").map (Except.map fun r =>
        (r.1.txHash, r.1.sessionId, r.1.blockHeight, r.1.status,
          (r.2.sessions.find? (fun s => s.id == "S1")).map fun s =>
            (s.status, s.isCommitted, s.txHash)))
      = some (.ok ("", "S1", 7, "committed", some ("committed", true, some "")))
    ∧ ("" : String) ≠ "ABCDEF" := by
  refine ⟨rfl, ?_⟩
  decide

/-! ## Claim C6: error-code to status mapping -/

/-- Counterexample to claim C6: the same store error (a unique violation)
is mapped to 409 by the session-start handler but to 500 by the commit
handler, so the mapping is not one shared function and the commit handler
does not follow the claimed table. -/

theorem c6_counterexample_nonuniform_mapping :
    (commitSessionDbErrorResponse ⟨pgErrUniqueViolation, "duplicate key", "d"⟩).1.statusCode = 500
    ∧ (createSessionDbErrorResponse ⟨pgErrUniqueViolation, "duplicate key", "d"⟩).1.statusCode = 409
    ∧ specDbErrorStatus pgErrUniqueViolation = 409
    ∧ (500 : Nat) ≠ 409 := by
  refine ⟨rfl, rfl, rfl, ?_⟩
  decide

/-- Claim C6 (amended): each handler maps the error codes its own switch
distinguishes according to the spec table (FK 400, unique 409, not-found
404, invalid-state 409) and every other code to 500; but the handlers
distinguish different code subsets — session-start only FK and unique,
scan/validate/qc only not-found, label not-found and FK, commit
invalid-state, not-found and FK — so a code outside a handler's subset
(e.g. a unique violation at commit) falls to 500 instead of the table
entry. -/

theorem c6_amended_error_status : ∀ e : RepositoryError,
    ((e.code = pgErrForeignKeyViolation ∨ e.code = pgErrUniqueViolation) →
      (createSessionDbErrorResponse e).1.statusCode = specDbErrorStatus e.code)
    ∧ (e.code ≠ pgErrForeignKeyViolation → e.code ≠ pgErrUniqueViolation →
      (createSessionDbErrorResponse e).1.statusCode = 500)
    ∧ (e.code = "ENTITY_NOT_FOUND" →
      (scanPackageDbErrorResponse e).1.statusCode = specDbErrorStatus e.code)
    ∧ (e.code ≠ "ENTITY_NOT_FOUND" → (scanPackageDbErrorResponse e).1.statusCode = 500)
    ∧ (e.code = "ENTITY_NOT_FOUND" →
      (validatePackageDbErrorResponse e).1.statusCode = specDbErrorStatus e.code)
    ∧ (e.code ≠ "ENTITY_NOT_FOUND" → (validatePackageDbErrorResponse e).1.statusCode = 500)
    ∧ (e.code = "ENTITY_NOT_FOUND" →
      (qualityCheckDbErrorResponse e).1.statusCode = specDbErrorStatus e.code)
    ∧ (e.code ≠ "ENTITY_NOT_FOUND" → (qualityCheckDbErrorResponse e).1.statusCode = 500)
    ∧ ((e.code = "ENTITY_NOT_FOUND" ∨ e.code = pgErrForeignKeyViolation) →
      (labelPackageDbErrorResponse e).1.statusCode = specDbErrorStatus e.code)
    ∧ (e.code ≠ "ENTITY_NOT_FOUND" → e.code ≠ pgErrForeignKeyViolation →
      (labelPackageDbErrorResponse e).1.statusCode = 500)
    ∧ ((e.code = "INVALID_STATE" ∨ e.code = "ENTITY_NOT_FOUND" ∨
          e.code = pgErrForeignKeyViolation) →
      (commitSessionDbErrorResponse e).1.statusCode = specDbErrorStatus e.code)
    ∧ (e.code ≠ "INVALID_STATE" → e.code ≠ "ENTITY_NOT_FOUND" →
        e.code ≠ pgErrForeignKeyViolation →
      (commitSessionDbErrorResponse e).1.statusCode = 500) := by
  intro e
  refine ⟨?_, ?_, ?_, ?_, ?_, ?_, ?_, ?_, ?_, ?_, ?_, ?_⟩
  · rintro (h | h) <;>
      simp [createSessionDbErrorResponse, specDbErrorStatus, h,
        pgErrForeignKeyViolation, pgErrUniqueViolation]
  · intro h1 h2
    simp [createSessionDbErrorResponse, h1, h2]
  · intro h
    simp [scanPackageDbErrorResponse, specDbErrorStatus, h,
      pgErrForeignKeyViolation, pgErrUniqueViolation]
  · intro h
    simp [scanPackageDbErrorResponse, h]
  · intro h
    simp [validatePackageDbErrorResponse, specDbErrorStatus, h,
      pgErrForeignKeyViolation, pgErrUniqueViolation]
  · intro h
    simp [validatePackageDbErrorResponse, h]
  · intro h
    simp [qualityCheckDbErrorResponse, specDbErrorStatus, h,
      pgErrForeignKeyViolation, pgErrUniqueViolation]
  · intro h
    simp [qualityCheckDbErrorResponse, h]
  · rintro (h | h) <;>
      simp [labelPackageDbErrorResponse, specDbErrorStatus, h,
        pgErrForeignKeyViolation, pgErrUniqueViolation]
  · intro h1 h2
    simp [labelPackageDbErrorResponse, h1, h2]
  · rintro (h | h | h) <;>
      simp [commitSessionDbErrorResponse, specDbErrorStatus, h,
        pgErrForeignKeyViolation, pgErrUniqueViolation]
  · intro h1 h2 h3
    simp [commitSessionDbErrorResponse, h1, h2, h3]

/-- Counterexample to claim C3: session S1 is bound to a package whose
status differs from qc_passed, yet POST /commit/S1 answers 500, not 409
— the already-committed check fires first, its repository error code
CONFLICT is not in the handler switch, and the default maps it to 500
(the store is left unchanged). -/

theorem c3_counterexample_committed_session_500 :
    ((c3store.packages.find? (fun p => p.sessionId == some "S1")).map PackageRow.status) =
      some "committed"
    ∧ ("committed" : String) ≠ "qc_passed"
    ∧ (commitSessionHandlerL2 c3codec c3net ["layer-1-node0:5000"] c3store c3req).map
        (fun r => (r.1.1.statusCode, r.2)) = some (500, c3store)
    ∧ (500 : Nat) ≠ 409 := by
  refine ⟨rfl, by decide, rfl, by decide⟩

/-- Claim C3 (amended): for a session that is not already committed and
whose operator id matches the request, a POST /commit/:id finding the
bound package in a status other than qc_passed answers 409 and leaves the
store unchanged; an already-committed session instead answers 500
(repository code CONFLICT is unmapped), as does an operator mismatch
(code UNAUTHORIZED). -/

theorem c3_amended_commit_gate :
    ∀ (codec : JsonCodec) (net : L1CommitPayload → Except RepositoryError L1Meta)
      (addrs : List String) (st : Store) (req : Request) (sid : String)
      (body : CommitBody) (session : SessionRow) (pkg : PackageRow),
    splitOnChar '/' req.path = ["", "commit", sid] →
    codec.commitBody req.body = .ok body →
    st.sessions.find? (fun s => s.id == sid) = some session →
    session.status ≠ "committed" →
    body.operatorId = session.operatorId →
    st.packages.find? (fun p => p.sessionId == some session.id) = some pkg →
    pkg.status ≠ "qc_passed" →
    (commitSessionHandlerL2 codec net addrs st req).map (fun r => (r.1.1.statusCode, r.2)) =
      some (409, st) := by
  intro codec net addrs st req sid body session pkg hpath hbody hfind hncom hop hpkg hnqc
  have hcs : commitSession net addrs st sid body.operatorId =
      some (.error ⟨"INVALID_STATE", "Package not ready for commit",
        "Package status is " ++ pkg.status ++ ", must be qc_passed"⟩) := by
    simp only [commitSession, hfind]
    rw [if_neg hncom, if_neg (fun hh => hh hop)]
    simp only [hpkg]
    rw [if_pos hnqc]
  have hgd : (["", "commit", sid] : List String).getD 2 "" = sid := rfl
  simp only [commitSessionHandlerL2, hpath, hbody]
  rw [hgd, hcs]
  simp [commitSessionDbErrorResponse]

/-- Witness for the amended C3 theorem: a premature commit of an active
session whose package is only validated answers 409 and leaves the store
unchanged. -/

theorem c3_amended_commit_gate_w :
    (commitSessionHandlerL2 c3codec c3net ["layer-1-node0:5000"] c3wStore c3wReq).map
      (fun r => (r.1.1.statusCode, r.2)) = some (409, c3wStore) := by
  exact c3_amended_commit_gate c3codec c3net ["layer-1-node0:5000"] c3wStore c3wReq "S1"
    ⟨"OPR-001"⟩ ⟨"S1", "active", "OPR-001", false, none⟩
    ⟨"PKG-1", some "S1", "SUP-001", "sig", true, "validated"⟩
    rfl rfl rfl (by decide) rfl rfl (by decide)

/-- Counterexample to claim C5: submitting a payload for session S1 whose
L1 row exists with different contents (destination CUSTOMER B vs the
stored CUSTOMER A) answers 422 — the handler maps every repository error
to StatusUnprocessableEntity — not the claimed 409. -/

theorem c5_counterexample_conflict_not_409 :
    (receiveCommitHandler c5codecDiff [c5row] c5req).1.1.statusCode = 422
    ∧ (receiveCommitHandler c5codecDiff [c5row] c5req).2 = [c5row]
    ∧ (422 : Nat) ≠ 409 := by
  refine ⟨rfl, rfl, ?_⟩
  decide

/-- Claim C5 (amended): the replication handler is idempotent keyed by
session id — re-submitting a payload identical to the existing L1 row
answers 202 with the same (echoed) body and the same store — but a
payload differing from the existing row answers 422 (not 409), leaving
the store unchanged. -/

theorem c5_amended_idempotency :
    ∀ (codec : JsonCodec) (st : List L1SessionRecord) (req : Request) (sid : String)
      (b : ReceiveCommitBody) (row : L1SessionRecord),
    splitOnChar '/' req.path = ["", "session", sid, "commit-l1"] →
    codec.receiveCommit req.body = .ok b →
    st.find? (fun r => r.sessionId == sid) = some row →
    ((row = payloadRecord sid b →
        receiveCommitHandler codec st req = ((⟨202, defaultHeaders, req.body⟩, none), st))
     ∧ (row ≠ payloadRecord sid b →
        (receiveCommitHandler codec st req).1.1.statusCode = 422
        ∧ (receiveCommitHandler codec st req).2 = st)) := by
  intro codec st req sid b row hpath hbody hfind
  have hgd : (["", "session", sid, "commit-l1"] : List String).getD 2 "" = sid := rfl
  constructor
  · intro heq
    simp only [payloadRecord] at heq
    have hrep : replicateCommitFromL2 st sid b.operatorId b.packageId b.supplierSignature
        b.label b.destination b.priority b.courierId b.qcPassed b.issues = .ok st := by
      simp only [replicateCommitFromL2, hfind]
      rw [if_pos heq]
    simp only [receiveCommitHandler, hpath, hbody]
    rw [hgd, hrep]
    simp
  · intro hne
    simp only [payloadRecord] at hne
    have hrep : replicateCommitFromL2 st sid b.operatorId b.packageId b.supplierSignature
        b.label b.destination b.priority b.courierId b.qcPassed b.issues =
        .error ⟨"CONFLICT", "Session exists with different contents",
          "cross-layer conflict for session " ++ sid⟩ := by
      simp only [replicateCommitFromL2, hfind]
      rw [if_neg hne]
    constructor <;>
      · simp only [receiveCommitHandler, hpath, hbody]
        rw [hgd, hrep]
        simp

/-- Witness for the amended C5 theorem: the identical payload re-submits
to 202 with the echoed body and unchanged store; the conflicting payload
answers 422. -/

theorem c5_amended_idempotency_w :
    receiveCommitHandler c5codecSame [c5row] c5req =
      ((⟨202, defaultHeaders, c5req.body⟩, none), [c5row])
    ∧ (receiveCommitHandler c5codecDiff [c5row] c5req).1.1.statusCode = 422 := by
  constructor
  · exact (c5_amended_idempotency c5codecSame [c5row] c5req "S1"
      ⟨"OPR-001", "PKG-1", "sig", "L", "CUSTOMER A", "standard", "COU-001", true, ["all good"]⟩
      c5row rfl rfl rfl).1 (by decide)
  · exact ((c5_amended_idempotency c5codecDiff [c5row] c5req "S1"
      ⟨"OPR-001", "PKG-1", "sig", "L", "CUSTOMER B", "standard", "COU-001", true, ["all good"]⟩
      c5row rfl rfl rfl).2 (by decide)).1

/-! ## Claim C8: deterministic entity ids -/

theorem createSession_ok_inv (st : Store) (sid op : String) (session : SessionRow) (st2 : Store) :
    createSession st sid op = .ok (session, st2) →
    session = ⟨sid, "active", op, false, none⟩ ∧
      st2 = { st with sessions := st.sessions ++ [session] } := by
  intro h
  unfold createSession at h
  split_ifs at h
  injection h with h1
  simp only [Prod.mk.injEq] at h1
  obtain ⟨rfl, rfl⟩ := h1
  exact ⟨rfl, rfl⟩

/-- Claim C8: ids are deterministic functions of their inputs — a
successful session-start appends a session row whose id is "SESSION-"
followed by the request id; a successful quality check produces a QC
record whose id is "QC-" followed by the first 16 hex characters of the
hash of package-id ++ session-id; and a successful labelling produces a
label whose id is "LBL-" followed by the first 16 hex characters of the
hash of courier-id ++ package-id ++ session-id (`hashHex` models the hex
encoding of SHA-256, a pure function, so every replica computes the same
ids). -/

theorem c8_deterministic_ids :
    (∀ (codec : JsonCodec) (st : Store) (req : Request),
      (createSessionHandler codec st req).1.1.statusCode = 201 →
        ∃ row : SessionRow,
          (createSessionHandler codec st req).2.sessions = st.sessions ++ [row] ∧
            row.id = "SESSION-" ++ req.requestID)
    ∧ (∀ (hashHex : String → String) (codec : JsonCodec) (st : Store) (sid : String)
        (passed : Bool) (issues : List String) (pkg : PackageRow) (qc : QCRecordRow)
        (st2 : Store),
      qualityCheck hashHex codec st sid passed issues = .ok (pkg, qc, st2) →
        qc.id = "QC-" ++ strTake (hashHex (qc.packageId ++ qc.sessionId)) 16 ∧
          qc.sessionId = sid ∧ qc.packageId = pkg.id)
    ∧ (∀ (hashHex : String → String) (st : Store) (sid dest prio cid : String)
        (lbl : LabelRow) (st2 : Store),
      labelPackage hashHex st sid dest prio cid = .ok (lbl, st2) →
        lbl.id = "LBL-" ++ strTake (hashHex (lbl.courierId ++ lbl.packageId ++ lbl.sessionId)) 16 ∧
          lbl.courierId = cid ∧ lbl.sessionId = sid) := by
  refine ⟨?_, ?_, ?_⟩
  · intro codec st req h201
    cases hparse : codec.startSession req.body with
    | error msg =>
      simp only [createSessionHandler, hparse] at h201
      simp at h201
    | ok body =>
      simp only [createSessionHandler, hparse] at h201 ⊢
      by_cases hop : body.operatorId = ""
      · rw [if_pos hop] at h201
        simp at h201
      · rw [if_neg hop] at h201 ⊢
        cases hcr : createSession st ("SESSION-" ++ req.requestID) body.operatorId with
        | error dbErr =>
          simp only [hcr] at h201
          unfold createSessionDbErrorResponse at h201
          split_ifs at h201 <;> simp at h201
        | ok pair =>
          obtain ⟨session, st2⟩ := pair
          obtain ⟨hsess, hst2⟩ := createSession_ok_inv st _ _ session st2 hcr
          simp only [hcr] at h201 ⊢
          refine ⟨session, ?_, ?_⟩
          · rw [hst2]
          · rw [hsess]
  · intro hashHex codec st sid passed issues pkg qc st2 h
    unfold qualityCheck at h
    split at h
    · exact Except.noConfusion h
    · split at h
      · exact Except.noConfusion h
      · split at h
        · exact Except.noConfusion h
        · split at h <;> split at h <;> (dsimp only [] at h; split at h) <;>
            first
            | exact Except.noConfusion h
            | (injection h with h1
               simp only [Prod.mk.injEq] at h1
               obtain ⟨rfl, rfl, rfl⟩ := h1
               exact ⟨rfl, rfl, rfl⟩)
  · intro hashHex st sid dest prio cid lbl st2 h
    cases hsession : st.sessions.find? (fun s => s.id == sid) with
    | none =>
      simp only [labelPackage, hsession] at h
      exact Except.noConfusion h
    | some session =>
      cases hpkg : st.packages.find? (fun p => p.sessionId == some sid) with
      | none =>
        simp only [labelPackage, hsession, hpkg] at h
        exact Except.noConfusion h
      | some pkg0 =>
        cases hcourier : st.couriers.find? (fun c => c.id == cid) with
        | none =>
          simp only [labelPackage, hsession, hpkg, hcourier] at h
          exact Except.noConfusion h
        | some courier =>
          have hcid : courier.id = cid := by
            have h2 := List.find?_some hcourier
            simpa using h2
          have hsid : session.id = sid := by
            have h2 := List.find?_some hsession
            simpa using h2
          simp only [labelPackage, hsession, hpkg, hcourier] at h
          split at h
          · exact Except.noConfusion h
          · injection h with h1
            simp only [Prod.mk.injEq] at h1
            obtain ⟨rfl, rfl⟩ := h1
            refine ⟨?_, hcid, hsid⟩
            rw [hcid, hsid]

/-- Witness for C8 on a concrete store, request and hash function. -/

theorem c8_deterministic_ids_w :
    (∃ row : SessionRow,
        (createSessionHandler c8codec c8store c8req).2.sessions = c8store.sessions ++ [row] ∧
          row.id = "SESSION-" ++ c8req.requestID)
    ∧ ("QC-0123456789abcdef" : String) = "QC-" ++ strTake (c8hash ("PKG-1" ++ "S1")) 16
    ∧ ("LBL-0123456789abcdef" : String) =
        "LBL-" ++ strTake (c8hash ("COU-001" ++ "PKG-1" ++ "S1")) 16 := by
  refine ⟨?_, ?_, ?_⟩
  · exact c8_deterministic_ids.1 c8codec c8store c8req (by decide)
  · have h := c8_deterministic_ids.2.1 c8hash c8codec c8store "S1" true ["all good"] _ _ _ rfl
    exact h.1
  · have h := c8_deterministic_ids.2.2 c8hash c8store "S1" "CUSTOMER A" "standard" "COU-001"
      _ _ rfl
    exact h.1

/-- Witness for the amended C6 theorem at a concrete unique-violation
error: session-start maps it per the table (409), commit maps it to
500. -/

theorem c6_amended_error_status_w :
    (createSessionDbErrorResponse ⟨"23505", "m", "d"⟩).1.statusCode = specDbErrorStatus "23505"
    ∧ (commitSessionDbErrorResponse ⟨"23505", "m", "d"⟩).1.statusCode = 500 := by
  constructor
  · exact (c6_amended_error_status ⟨"23505", "m", "d"⟩).1 (Or.inr rfl)
  · exact (c6_amended_error_status ⟨"23505", "m", "d"⟩).2.2.2.2.2.2.2.2.2.2.2
      (by decide) (by decide) (by decide)

end DeWS
